import Mathlib

/-!
Verification development for the Cursor usage-tracker scraper
(`src/scraper.py`).  The Python code is shallowly embedded:

* `UsageData` mirrors the dataclass of the same name (lines 14-46);
  Python `int` fields become `Int`, Python `float` fields are modelled
  as exact rationals `ℚ`.
* The two `re.search` calls of `_parse_usage` (lines 267 and 273) are
  embedded as executable scanners over `List Char` that reproduce the
  leftmost-match / lazy `.*?` / greedy `\d+` semantics of the concrete
  patterns used by the code.
* BeautifulSoup is an external library; its output is abstracted as a
  `SoupDoc`: the flattened text (`get_text`) plus the structured rows
  (the div elements with role row and the dashboard-table-row class),
  each row carrying its cells, and its text nodes (what the string
  search of BeautifulSoup find inspects).
* The worker (`_do_fetch`), the state container (`ScraperState`), the
  admission guards (`request_fetch` / `request_login`) and the browser
  teardown (`_cleanup_browser`) are embedded as pure state-passing
  functions; the outcomes of the external blocking calls (browser
  launch, navigation, selector wait, content read) are an explicit
  environment `FetchEnv`, with `some msg` / `Except.error msg`
  standing for a raised exception carrying message `msg`.
-/

/-! ### String constants used by the code -/

def includedLabel : String := "Included-Request Usage"

def ondemandLabel : String := "On-Demand Usage"

def timeoutToken : String := "Timeout"

def pageLoadTimeoutMsg : String := "Page load timeout"

def pleaseLoginMsg : String := "Please login"

def idleStr : String := "idle"

def fetchingStr : String := "fetching"

def loggingInStr : String := "logging_in"

def errorStr : String := "error"

def fetchTaskStr : String := "FETCH"

def loginTaskStr : String := "LOGIN"

def thinkingToken : String := "thinking"

def dotsStr : String := "..."

def launchFailMsg : String := "Browser launch failed: "

def emptyStr : String := ""

/-! ### Character-level scanning primitives

These embed the regex fragments used in `_parse_usage`:
`(\d+)\s*/\s*(\d+)` after the literal label, with `re.DOTALL` and a
lazy `.*?` in between, and the `$`-amount variant for on-demand usage.
-/

/-- Python `\s` over ASCII: space, tab, newline, carriage return,
vertical tab, form feed. -/
def isPySpace (c : Char) : Bool :=
  c = ' ' || c = '\t' || c = '\n' || c = '\r' || c = '\x0b' || c = '\x0c'

def dropSpaces (s : List Char) : List Char := s.dropWhile isPySpace

/-- Value of a run of decimal digits (`int(...)` on the matched group). -/
def digitsToNat (l : List Char) : Nat :=
  List.foldl (fun a c => a * 10 + (c.toNat - 48)) 0 l

/-- Substring test, Python `pat in s`. -/
def containsSub : List Char → List Char → Bool
  | pat, [] => pat.isEmpty
  | pat, c :: rest => pat.isPrefixOf (c :: rest) || containsSub pat rest

/-- Attempt to match `(\d+)\s*/\s*(\d+)` at the head of `s`.  The
greedy `\d+` always takes a maximal digit run: backtracking to a
shorter run can never help, because the following `\s*/` cannot start
at a digit. -/
def matchPairAt (s : List Char) : Option (Nat × Nat) :=
  let d1 := s.takeWhile Char.isDigit
  if d1 = [] then none else
    match dropSpaces (s.dropWhile Char.isDigit) with
    | '/' :: r2 =>
        let d2 := (dropSpaces r2).takeWhile Char.isDigit
        if d2 = [] then none else some (digitsToNat d1, digitsToNat d2)
    | _ => none

/-- Lazy scan (`.*?` with `re.DOTALL`): try `matchPairAt` at each
position from the left, returning the first success. -/
def scanPair : List Char → Option (Nat × Nat)
  | [] => none
  | c :: rest =>
      match matchPairAt (c :: rest) with
      | some p => some p
      | none => scanPair rest

/-- Drop everything up to and including the first occurrence of `lab`;
`none` when `lab` does not occur.  This is the leftmost-match
behaviour of `re.search` for a pattern that starts with the literal
`lab`. -/
def dropAfter (lab : List Char) : List Char → Option (List Char)
  | [] => none
  | c :: rest =>
      if lab.isPrefixOf (c :: rest) then some ((c :: rest).drop lab.length)
      else dropAfter lab rest

/-- Embeds the search of line 267: the literal included-usage label, a
lazy DOTALL gap, then two integers separated by a slash. -/
def includedSearch (t : List Char) : Option (Nat × Nat) :=
  (dropAfter includedLabel.toList t).bind scanPair

/-- The optional fractional part `(?:\.\d+)?` of a currency amount:
returns the fraction digits and the rest of the input. -/
def takeFrac : List Char → List Char × List Char
  | '.' :: r =>
      let ds := r.takeWhile Char.isDigit
      if ds = [] then ([], '.' :: r) else (ds, r.dropWhile Char.isDigit)
  | s => ([], s)

/-- Exact rational value of `int part . frac part` (Python `float(...)`
on the matched group, modelled exactly). -/
def ratVal (d f : List Char) : ℚ :=
  (digitsToNat d : ℚ) + (digitsToNat f : ℚ) / (10 ^ f.length : ℚ)

/-- Attempt to match `\$(\d+(?:\.\d+)?)\s*/\s*\$(\d+(?:\.\d+)?)` at the
head of `s`. -/
def matchMoneyAt (s : List Char) : Option (ℚ × ℚ) :=
  match s with
  | '$' :: r1 =>
      let d1 := r1.takeWhile Char.isDigit
      if d1 = [] then none else
        let fr1 := takeFrac (r1.dropWhile Char.isDigit)
        match dropSpaces fr1.2 with
        | '/' :: r5 =>
            match dropSpaces r5 with
            | '$' :: r7 =>
                let d2 := r7.takeWhile Char.isDigit
                if d2 = [] then none else
                  let fr2 := takeFrac (r7.dropWhile Char.isDigit)
                  some (ratVal d1 fr1.1, ratVal d2 fr2.1)
            | _ => none
        | _ => none
  | _ => none

/-- Lazy scan for the currency pair. -/
def scanMoney : List Char → Option (ℚ × ℚ)
  | [] => none
  | c :: rest =>
      match matchMoneyAt (c :: rest) with
      | some p => some p
      | none => scanMoney rest

/-- Embeds the search of line 273: the literal on-demand label, a lazy
DOTALL gap, then two dollar amounts separated by a slash. -/
def ondemandSearch (t : List Char) : Option (ℚ × ℚ) :=
  (dropAfter ondemandLabel.toList t).bind scanMoney

/-! ### The `\bMax\b` word search (line 298) -/

/-- Python `\w` over ASCII. -/
def isWordChar (c : Char) : Bool := c.isAlphanum || c = '_'

/-- Does `\bMax\b` (case-insensitive) match at the head of `s`? -/
def matchMaxHere : List Char → Bool
  | c1 :: c2 :: c3 :: rest =>
      c1.toLower = 'm' && c2.toLower = 'a' && c3.toLower = 'x' &&
        (match rest with
         | [] => true
         | d :: _ => !isWordChar d)
  | _ => false

/-- Scan for `\bMax\b`; `prevIsWord` records whether the character just
before the current position is a word character (so that `\b` holds
exactly when it is not). -/
def containsWordMaxAux (prevIsWord : Bool) : List Char → Bool
  | [] => false
  | c :: rest =>
      (!prevIsWord && matchMaxHere (c :: rest)) ||
        containsWordMaxAux (isWordChar c) rest

/-- Whether the case-insensitive regex for the standalone word Max
(line 298) matches anywhere in s. -/
def containsWordMax (s : List Char) : Bool := containsWordMaxAux false s

/-! ### UsageData (scraper.py lines 14-46) -/

structure UsageData where
  included_used : Int
  included_total : Int
  ondemand_used : ℚ
  ondemand_limit : ℚ
  last_model : Option String
  last_timestamp : Option String
  is_thinking_mode : Bool
  is_max_mode : Bool
deriving DecidableEq, Repr

/-- The dataclass field defaults. -/
def defaultUsageData : UsageData :=
  { included_used := 0
    included_total := 500
    ondemand_used := 0
    ondemand_limit := 10
    last_model := none
    last_timestamp := none
    is_thinking_mode := false
    is_max_mode := false }

/-- Property included_percentage (lines 31-35). -/
def UsageData.included_percentage (d : UsageData) : ℚ :=
  if d.included_total = 0 then 0
  else ((d.included_used : ℚ) / (d.included_total : ℚ)) * 100

/-- Property included_remaining (lines 37-39). -/
def UsageData.included_remaining (d : UsageData) : Int :=
  d.included_total - d.included_used

/-- Property display_model (lines 41-46); Python truthiness of the
optional string. -/
def UsageData.display_model (d : UsageData) : String :=
  match d.last_model with
  | none => "Unknown"
  | some m => if m = emptyStr then "Unknown" else m

/-! ### The abstracted BeautifulSoup document -/

/-- A `<span>` element: its `title` attribute (`none` when absent) and
its `get_text(strip=True)` result. -/
structure Span where
  title : Option String
  text : String
deriving DecidableEq, Repr

/-- A cell (`div[role=cell]`): the spans it contains, in document
order (`find` returns the first). -/
structure Cell where
  spans : List Span
deriving DecidableEq, Repr

/-- A usage row (`div[role=row].dashboard-table-row`): its cells and
its text nodes (the strings searched by `find(string=...)`). -/
structure Row where
  cells : List Cell
  strings : List String
deriving DecidableEq, Repr

/-- What `_parse_usage` consumes from `BeautifulSoup(html)`: the
flattened text `soup.get_text()` and the usage rows. -/
structure SoupDoc where
  allText : String
  rows : List Row
deriving DecidableEq, Repr

def emptyCell : Cell := { spans := [] }

/-- Python `a or b` for an optional string attribute against a
fallback text: the attribute wins unless it is `None` or empty. -/
def strOr (t : Option String) (fallback : String) : String :=
  match t with
  | some v => if v = emptyStr then fallback else v
  | none => fallback

/-! ### `_parse_usage` (lines 258-302) -/

/-- Lines 267-270: assign the included-usage match, if any. -/
def parseIncluded (t : List Char) (d : UsageData) : UsageData :=
  match includedSearch t with
  | some p => { d with included_used := (p.1 : Int), included_total := (p.2 : Int) }
  | none => d

/-- Lines 273-276: assign the on-demand match, if any. -/
def parseOndemand (t : List Char) (d : UsageData) : UsageData :=
  match ondemandSearch t with
  | some p => { d with ondemand_used := p.1, ondemand_limit := p.2 }
  | none => d

/-- Line 286: the first span element of the first cell, if any. -/
def timestampSpan (r : Row) : Option Span := (r.cells.getD 0 emptyCell).spans.head?

/-- Line 291: the first span of the fourth cell that carries a title
attribute, if any. -/
def modelSpan (r : Row) : Option Span :=
  (r.cells.getD 3 emptyCell).spans.find? (fun sp => sp.title.isSome)

/-- Lines 286-288: set the timestamp from the first cell, if a span is
there. -/
def rowTimestamp (r : Row) (d : UsageData) : UsageData :=
  match timestampSpan r with
  | some sp => { d with last_timestamp := some (strOr sp.title sp.text) }
  | none => d

/-- Lines 291-295: set the model name from the fourth cell, if a
titled span is there, and flag thinking mode when the (truthy) name
contains "thinking" case-insensitively. -/
def rowModel (r : Row) (d : UsageData) : UsageData :=
  match modelSpan r with
  | some sp =>
      let m := strOr sp.title sp.text
      let dm := { d with last_model := some m }
      if m ≠ emptyStr && containsSub thinkingToken.toList (m.toList.map Char.toLower)
      then { dm with is_thinking_mode := true }
      else dm
  | none => d

/-- Lines 298-300: flag max mode when some text node of the row
matches `\bMax\b` case-insensitively. -/
def rowMax (r : Row) (d : UsageData) : UsageData :=
  if r.strings.any (fun s => containsWordMax s.toList)
  then { d with is_max_mode := true }
  else d

/-- Lines 284-300: the body guarded by `len(cells) >= 4`, in source
order: timestamp, then model/thinking, then the Max badge. -/
def rowStep (r : Row) (d : UsageData) : UsageData :=
  rowMax r (rowModel r (rowTimestamp r d))

/-- Lines 279-300: only the first row is inspected, and only when it
has at least four cells. -/
def parseRow (rows : List Row) (d : UsageData) : UsageData :=
  match rows with
  | [] => d
  | r :: _ => if 4 ≤ r.cells.length then rowStep r d else d

/-- Method CursorScraper._parse_usage (lines 258-302).  Total by
construction: every field stays at its default unless its pattern
matches. -/
def parseUsage (doc : SoupDoc) : UsageData :=
  parseRow doc.rows
    (parseOndemand doc.allText.toList
      (parseIncluded doc.allText.toList defaultUsageData))

def emptyDoc : SoupDoc := { allText := emptyStr, rows := [] }

/-! ### ScraperState (lines 49-73)

The Python dataclass guards every access with one lock; here the state
is a plain record and `update` / `get_snapshot` are the only
operations, which models the all-or-nothing visibility the lock
provides. -/

structure ScraperState where
  status : String
  error : Option String
  logged_in : Bool
  usage_data : Option UsageData
  last_fetch_time : Option String
deriving DecidableEq, Repr

/-- Dataclass defaults (lines 52-56). -/
def initialScraperState : ScraperState :=
  { status := idleStr
    error := none
    logged_in := false
    usage_data := none
    last_fetch_time := none }

/-- The `**kwargs` of one `update` call: `some v` means the public
field was named (with value `v`), `none` that it was omitted.  Keys
that are not public fields are dropped by the `hasattr`/underscore
check on line 62 and are not modelled. -/
structure UpdateArgs where
  status : Option String
  error : Option (Option String)
  logged_in : Option Bool
  usage_data : Option (Option UsageData)
  last_fetch_time : Option (Option String)
deriving DecidableEq, Repr

def noArgs : UpdateArgs := { status := none, error := none, logged_in := none, usage_data := none, last_fetch_time := none }

/-- Method update of ScraperState (lines 59-63): each named field is assigned,
every other field keeps its prior value. -/
def ScraperState.update (s : ScraperState) (a : UpdateArgs) : ScraperState :=
  { status := a.status.getD s.status
    error := a.error.getD s.error
    logged_in := a.logged_in.getD s.logged_in
    usage_data := a.usage_data.getD s.usage_data
    last_fetch_time := a.last_fetch_time.getD s.last_fetch_time }

/-- The dict returned by `get_snapshot` (lines 65-73): exactly the
five public fields, copied at one instant. -/
structure StateSnapshot where
  status : String
  error : Option String
  logged_in : Bool
  usage_data : Option UsageData
  last_fetch_time : Option String
deriving DecidableEq, Repr

def get_snapshot (s : ScraperState) : StateSnapshot :=
  { status := s.status
    error := s.error
    logged_in := s.logged_in
    usage_data := s.usage_data
    last_fetch_time := s.last_fetch_time }

/-! ### Admission guards (lines 306-314) -/

/-- The parts of `CursorScraper` the guards touch: the shared state
and the FIFO task queue (front of list = front of queue). -/
structure ScraperHandle where
  state : ScraperState
  task_queue : List String
deriving DecidableEq, Repr

/-- Method request_fetch (lines 306-309). -/
def request_fetch (h : ScraperHandle) : ScraperHandle :=
  if h.state.status = fetchingStr ∨ h.state.status = loggingInStr then h
  else { h with task_queue := h.task_queue ++ [fetchTaskStr] }

/-- Method request_login (lines 311-314). -/
def request_login (h : ScraperHandle) : ScraperHandle :=
  if h.state.status = loggingInStr then h
  else { h with task_queue := h.task_queue ++ [loginTaskStr] }

/-! ### Browser teardown (lines 164-172) -/

/-- A live browser context; `closeRaises` records whether its
`close()` call would raise (the bare `except: pass` swallows it). -/
structure Browser where
  handleId : Nat
  closeRaises : Bool
deriving DecidableEq, Repr

/-- The session-owning fields of `CursorScraper`: `_browser` and
`_page`. -/
structure Session where
  browser : Option Browser
  page : Option Nat
deriving DecidableEq, Repr

def closeFailMsg : String := "close failed"

/-- Closing the browser context: may raise. -/
def closeBrowser (b : Browser) : Except String Unit :=
  if b.closeRaises then Except.error closeFailMsg else Except.ok ()

/-- Method _cleanup_browser (lines 164-172): close under a bare except that swallows,
then null both handles; no-op when no browser is open.  Total — the
embedded teardown cannot fail. -/
def cleanupBrowser (s : Session) : Session :=
  match s.browser with
  | some b =>
      match closeBrowser b with
      | Except.ok _ => { browser := none, page := none }
      | Except.error _ => { browser := none, page := none }
  | none => s

/-! ### `_do_fetch` (lines 214-256) -/

/-- Outcomes of the external blocking calls made by one fetch:
`some msg` / `Except.error msg` is an exception with message `msg`
(Python `str(e)`); `content` carries the parsed soup of
`page.content()` on success. -/
structure FetchEnv where
  ensureResult : Option String
  gotoResult : Option String
  selectorFound : Bool
  content : Except String SoupDoc
deriving Repr

/-- Lines 250-256: normalize an exception message.  `"Timeout" in msg`
gives the fixed message; otherwise messages longer than 50 characters
are cut to 50 and `"..."` is appended (53 characters total). -/
def fetchErrorMsg (e : String) : String :=
  if containsSub timeoutToken.toList e.toList then pageLoadTimeoutMsg
  else if 50 < e.toList.length then ((e.toList.take 50) ++ dotsStr.toList).asString
  else e

def argsStatusError (m : String) : UpdateArgs :=
  { noArgs with status := some errorStr, error := some (some m) }

/-- Method _do_fetch as a state transformer.  Returns the final shared
state and whether the page content was read and parsed.  Every
exception path ends in the `except` handler of lines 250-256, so the
function is total: nothing escapes the worker. -/
def do_fetch (env : FetchEnv) (s0 : ScraperState) (now : String) : ScraperState × Bool :=
  let s1 := s0.update { noArgs with status := some fetchingStr, error := some none }
  match env.ensureResult with
  | some e =>
      let s2 := s1.update (argsStatusError (launchFailMsg ++ e))
      (s2.update (argsStatusError (fetchErrorMsg e)), false)
  | none =>
      match env.gotoResult with
      | some e => (s1.update (argsStatusError (fetchErrorMsg e)), false)
      | none =>
          if env.selectorFound = false then
            (s1.update { noArgs with status := some idleStr, error := some (some pleaseLoginMsg), logged_in := some false }, false)
          else
            match env.content with
            | Except.error e => (s1.update (argsStatusError (fetchErrorMsg e)), false)
            | Except.ok doc =>
                let data := parseUsage doc
                (s1.update
                  { status := some idleStr
                    error := some none
                    logged_in := some true
                    usage_data := some (some data)
                    last_fetch_time := some (some now) }, true)

/-! ### Concrete sample inputs -/

def nowSample : String := "12:00"

def pair37Str : String := "37 / 500"

/-- Is the head of the list absent or a non-digit?  (Used to state
that a digit run is not extended to the right.) -/
def headNotDigit : List Char → Bool
  | [] => true
  | c :: _ => !c.isDigit

def c3PreStr : String := "A: "

def c3MidStr : String := " is "

def c3PostStr : String := " left"

def c3DocStr : String := "A: Included-Request Usage is 37 / 500 left"

def c3Doc : SoupDoc := { allText := c3DocStr, rows := [] }

def c3CexMidStr : String := " 1 / 2 and "

def c3CexStr : String := "Included-Request Usage 1 / 2 and 37 / 500"

def c3CexDoc : SoupDoc := { allText := c3CexStr, rows := [] }

def maxBadgeStr : String := "Max"

def maximalStr : String := "Maximal-7B"

/-- A row that mentions the standalone word `Max` but has no cells. -/
def c4CexRow : Row := { cells := [], strings := [maxBadgeStr] }

def c4CexDoc : SoupDoc := { allText := emptyStr, rows := [c4CexRow] }

/-- A four-cell row whose only text node is the `Max` badge. -/
def c4Row : Row := { cells := [emptyCell, emptyCell, emptyCell, emptyCell], strings := [maxBadgeStr] }

def c4Doc : SoupDoc := { allText := emptyStr, rows := [c4Row] }

def c4MaximalRow : Row := { cells := [emptyCell, emptyCell, emptyCell, emptyCell], strings := [maximalStr] }

def c4MaximalDoc : SoupDoc := { allText := emptyStr, rows := [c4MaximalRow] }

def idleHandle : ScraperHandle := { state := initialScraperState, task_queue := [] }

/-- A 60-character exception message without the substring `Timeout`. -/
def c7Raw : String := "aaaaaaaaaaaaaaaaaaaaaaaaaaaaaaaaaaaaaaaaaaaaaaaaaaaaaaaaaaaa"

def c7Env : FetchEnv :=
  { ensureResult := none, gotoResult := some c7Raw, selectorFound := true, content := Except.ok emptyDoc }

def c7TimeoutRaw : String := "Timeout 30000ms exceeded while navigating"

def c7EnvTimeout : FetchEnv :=
  { ensureResult := some c7TimeoutRaw, gotoResult := none, selectorFound := true, content := Except.ok emptyDoc }

def c6Env : FetchEnv :=
  { ensureResult := none, gotoResult := none, selectorFound := false, content := Except.ok emptyDoc }

def c9Args : UpdateArgs := { noArgs with status := some fetchingStr }

def c2Sample : UsageData := { defaultUsageData with included_used := 37 }

/-! ### Theorems -/

/-- C2: for every UsageData with nonnegative included fields, the
derived `included_percentage` is 0 when `included_total = 0` and
`included_used / included_total * 100` otherwise (no division by
zero), and `included_remaining = included_total - included_used`,
unclamped (negative when usage exceeds quota). -/
theorem c2_included_derived (d : UsageData)
    (h1 : 0 ≤ d.included_used) (h2 : 0 ≤ d.included_total) :
    (d.included_total = 0 → d.included_percentage = 0) ∧
    (d.included_total ≠ 0 →
      d.included_percentage = (d.included_used : ℚ) / (d.included_total : ℚ) * 100) ∧
    d.included_remaining = d.included_total - d.included_used := by
  refine ⟨fun h => ?_, fun h => ?_, rfl⟩
  · simp [UsageData.included_percentage, h]
  · simp [UsageData.included_percentage, h]

theorem c2_included_derived_witness :
    c2Sample.included_remaining = c2Sample.included_total - c2Sample.included_used :=
  (c2_included_derived c2Sample (by decide) (by decide)).2.2

/-- C5: `request_fetch` leaves the task queue unchanged exactly when
the status is `fetching` or `logging_in`, and otherwise appends a
single FETCH task; `request_login` leaves the queue unchanged exactly
when the status is `logging_in`, and otherwise appends a single LOGIN
task. -/
theorem c5_admission_guards (h : ScraperHandle) :
    ((h.state.status = fetchingStr ∨ h.state.status = loggingInStr) →
        (request_fetch h).task_queue = h.task_queue) ∧
    (¬(h.state.status = fetchingStr ∨ h.state.status = loggingInStr) →
        (request_fetch h).task_queue = h.task_queue ++ [fetchTaskStr]) ∧
    (h.state.status = loggingInStr → (request_login h).task_queue = h.task_queue) ∧
    (h.state.status ≠ loggingInStr →
        (request_login h).task_queue = h.task_queue ++ [loginTaskStr]) := by
  refine ⟨fun hs => ?_, fun hs => ?_, fun hs => ?_, fun hs => ?_⟩ <;>
    simp [request_fetch, request_login, hs]

theorem c5_admission_guards_witness :
    (request_fetch idleHandle).task_queue = idleHandle.task_queue ++ [fetchTaskStr] ∧
    (request_fetch { idleHandle with state := { initialScraperState with status := fetchingStr } }).task_queue =
      ({ idleHandle with state := { initialScraperState with status := fetchingStr } } : ScraperHandle).task_queue :=
  ⟨(c5_admission_guards idleHandle).2.1 (by decide),
   (c5_admission_guards { idleHandle with state := { initialScraperState with status := fetchingStr } }).1 (Or.inl rfl)⟩

/-- C8: `_cleanup_browser` never raises (the embedded teardown is
total and swallows the `close()` failure: the result does not depend
on whether `close()` raises), it is idempotent, calling it on an
already-closed session leaves the state unchanged, and afterwards the
browser handle is null and — for any state satisfying the invariant of
the code that a page exists only alongside a browser — the page
handle is null as well. -/
theorem c8_cleanup_teardown (s : Session) :
    cleanupBrowser (cleanupBrowser s) = cleanupBrowser s ∧
    (s.browser = none → cleanupBrowser s = s) ∧
    (cleanupBrowser s).browser = none ∧
    ((s.browser = none → s.page = none) → (cleanupBrowser s).page = none) ∧
    (∀ hid p, cleanupBrowser { browser := some { handleId := hid, closeRaises := true }, page := p } =
        cleanupBrowser { browser := some { handleId := hid, closeRaises := false }, page := p }) := by
  obtain ⟨ob, pg⟩ := s
  cases ob with
  | none => exact ⟨rfl, fun _ => rfl, rfl, fun h => h rfl, fun hid p => rfl⟩
  | some b =>
      cases hb : b.closeRaises <;>
        refine ⟨?_, fun h => by simp at h, ?_, fun _ => ?_, fun hid p => rfl⟩ <;>
        simp [cleanupBrowser, closeBrowser, hb]

theorem c8_cleanup_teardown_witness :
    cleanupBrowser { browser := none, page := none } = { browser := none, page := none } :=
  (c8_cleanup_teardown { browser := none, page := none }).2.1 rfl

/-- C9: after `update` with a set of named public fields, the snapshot
holds exactly the given value for every named field and the prior
value for every unnamed field; the snapshot record (`StateSnapshot`)
consists, by construction, of exactly the five fields status, error,
logged_in, usage_data, last_fetch_time. -/
theorem c9_update_then_snapshot (s : ScraperState) (a : UpdateArgs) :
    (∀ v, a.status = some v → (get_snapshot (s.update a)).status = v) ∧
    (a.status = none → (get_snapshot (s.update a)).status = s.status) ∧
    (∀ v, a.error = some v → (get_snapshot (s.update a)).error = v) ∧
    (a.error = none → (get_snapshot (s.update a)).error = s.error) ∧
    (∀ v, a.logged_in = some v → (get_snapshot (s.update a)).logged_in = v) ∧
    (a.logged_in = none → (get_snapshot (s.update a)).logged_in = s.logged_in) ∧
    (∀ v, a.usage_data = some v → (get_snapshot (s.update a)).usage_data = v) ∧
    (a.usage_data = none → (get_snapshot (s.update a)).usage_data = s.usage_data) ∧
    (∀ v, a.last_fetch_time = some v → (get_snapshot (s.update a)).last_fetch_time = v) ∧
    (a.last_fetch_time = none → (get_snapshot (s.update a)).last_fetch_time = s.last_fetch_time) := by
  refine ⟨fun v hv => ?_, fun hv => ?_, fun v hv => ?_, fun hv => ?_, fun v hv => ?_,
    fun hv => ?_, fun v hv => ?_, fun hv => ?_, fun v hv => ?_, fun hv => ?_⟩ <;>
    simp [get_snapshot, ScraperState.update, hv]

theorem c9_update_then_snapshot_witness :
    (get_snapshot (initialScraperState.update c9Args)).status = fetchingStr ∧
    (get_snapshot (initialScraperState.update c9Args)).error = initialScraperState.error :=
  ⟨(c9_update_then_snapshot initialScraperState c9Args).1 fetchingStr rfl,
   (c9_update_then_snapshot initialScraperState c9Args).2.2.2.1 rfl⟩

/-- C6: when the usage-section marker is not found within the bounded
wait (browser launch and navigation having succeeded), the fetch
publishes exactly status=idle, logged_in=false, error="Please login",
reads and parses no page content, leaves the stored usage snapshot and
fetch time unchanged, and does not publish status=error. -/
theorem c6_marker_absent (env : FetchEnv) (s : ScraperState) (now : String)
    (h1 : env.ensureResult = none) (h2 : env.gotoResult = none)
    (h3 : env.selectorFound = false) :
    (do_fetch env s now).2 = false ∧
    (do_fetch env s now).1.status = idleStr ∧
    (do_fetch env s now).1.error = some pleaseLoginMsg ∧
    (do_fetch env s now).1.logged_in = false ∧
    (do_fetch env s now).1.usage_data = s.usage_data ∧
    (do_fetch env s now).1.last_fetch_time = s.last_fetch_time ∧
    (do_fetch env s now).1.status ≠ errorStr := by
  simp [do_fetch, h1, h2, h3, ScraperState.update, noArgs]
  decide

theorem c6_marker_absent_witness :
    (do_fetch c6Env initialScraperState nowSample).1.status = idleStr ∧
    (do_fetch c6Env initialScraperState nowSample).1.error = some pleaseLoginMsg ∧
    (do_fetch c6Env initialScraperState nowSample).2 = false :=
  ⟨(c6_marker_absent c6Env initialScraperState nowSample rfl rfl rfl).2.1,
   (c6_marker_absent c6Env initialScraperState nowSample rfl rfl rfl).2.2.1,
   (c6_marker_absent c6Env initialScraperState nowSample rfl rfl rfl).1⟩

/-- C7 counterexample: for a 60-character non-timeout exception
message, the published error message is 53 characters long — the
first 50 characters plus an appended "..." — not the raw message
truncated to at most 50 characters as the claim states. -/
theorem c7_counterexample :
    (do_fetch c7Env initialScraperState nowSample).1.status = errorStr ∧
    (do_fetch c7Env initialScraperState nowSample).1.error = some (fetchErrorMsg c7Raw) ∧
    (fetchErrorMsg c7Raw).toList.length = 53 ∧
    ¬(fetchErrorMsg c7Raw).toList.length ≤ 50 ∧
    fetchErrorMsg c7Raw ≠ (c7Raw.toList.take 50).asString := by decide

/-- C7 amended: every exception raised during a fetch (browser
launch, navigation, or content read) is caught — `do_fetch` is total —
and published as status=error with message exactly "Page load
timeout" when the raw message contains "Timeout"; otherwise the raw
message itself when it has at most 50 characters, else its first 50
characters with "..." appended, 53 characters in total. -/
theorem c7_exception_normalized (env : FetchEnv) (s : ScraperState) (now e : String) :
    (env.ensureResult = some e →
        (do_fetch env s now).1.status = errorStr ∧
        (do_fetch env s now).1.error = some (fetchErrorMsg e)) ∧
    (env.ensureResult = none → env.gotoResult = some e →
        (do_fetch env s now).1.status = errorStr ∧
        (do_fetch env s now).1.error = some (fetchErrorMsg e)) ∧
    (env.ensureResult = none → env.gotoResult = none → env.selectorFound = true →
        env.content = Except.error e →
        (do_fetch env s now).1.status = errorStr ∧
        (do_fetch env s now).1.error = some (fetchErrorMsg e)) ∧
    (containsSub timeoutToken.toList e.toList = true → fetchErrorMsg e = pageLoadTimeoutMsg) ∧
    (containsSub timeoutToken.toList e.toList = false → e.toList.length ≤ 50 →
        fetchErrorMsg e = e) ∧
    (containsSub timeoutToken.toList e.toList = false → 50 < e.toList.length →
        fetchErrorMsg e = ((e.toList.take 50) ++ dotsStr.toList).asString ∧
        (fetchErrorMsg e).toList.length = 53) := by
  refine ⟨fun h1 => ?_, fun h1 h2 => ?_, fun h1 h2 h3 h4 => ?_,
    fun ht => ?_, fun ht hl => ?_, fun ht hl => ?_⟩
  · simp [do_fetch, h1, ScraperState.update, noArgs, argsStatusError]
  · simp [do_fetch, h1, h2, ScraperState.update, noArgs, argsStatusError]
  · simp [do_fetch, h1, h2, h3, h4, ScraperState.update, noArgs, argsStatusError]
  · rw [fetchErrorMsg, if_pos ht]
  · rw [fetchErrorMsg, if_neg (by rw [ht]; simp), if_neg (by omega)]
  · rw [fetchErrorMsg, if_neg (by rw [ht]; simp), if_pos hl]
    refine ⟨rfl, ?_⟩
    show (e.toList.take 50 ++ dotsStr.toList).length = 53
    have hd : dotsStr.toList.length = 3 := rfl
    rw [List.length_append, List.length_take, hd]
    omega

theorem c7_exception_normalized_witness :
    (do_fetch c7EnvTimeout initialScraperState nowSample).1.status = errorStr ∧
    (do_fetch c7EnvTimeout initialScraperState nowSample).1.error =
      some (fetchErrorMsg c7TimeoutRaw) ∧
    fetchErrorMsg c7TimeoutRaw = pageLoadTimeoutMsg :=
  ⟨((c7_exception_normalized c7EnvTimeout initialScraperState nowSample c7TimeoutRaw).1 rfl).1,
   ((c7_exception_normalized c7EnvTimeout initialScraperState nowSample c7TimeoutRaw).1 rfl).2,
   (c7_exception_normalized c7EnvTimeout initialScraperState nowSample c7TimeoutRaw).2.2.2.1 (by decide)⟩

/-! ### Frame lemmas for the parser -/

theorem parseIncluded_frame (t : List Char) (d : UsageData) :
    (parseIncluded t d).ondemand_used = d.ondemand_used ∧
    (parseIncluded t d).ondemand_limit = d.ondemand_limit ∧
    (parseIncluded t d).last_model = d.last_model ∧
    (parseIncluded t d).last_timestamp = d.last_timestamp ∧
    (parseIncluded t d).is_thinking_mode = d.is_thinking_mode ∧
    (parseIncluded t d).is_max_mode = d.is_max_mode := by
  unfold parseIncluded
  cases includedSearch t <;> simp

theorem parseOndemand_frame (t : List Char) (d : UsageData) :
    (parseOndemand t d).included_used = d.included_used ∧
    (parseOndemand t d).included_total = d.included_total ∧
    (parseOndemand t d).last_model = d.last_model ∧
    (parseOndemand t d).last_timestamp = d.last_timestamp ∧
    (parseOndemand t d).is_thinking_mode = d.is_thinking_mode ∧
    (parseOndemand t d).is_max_mode = d.is_max_mode := by
  unfold parseOndemand
  cases ondemandSearch t <;> simp

theorem rowTimestamp_frame (r : Row) (d : UsageData) :
    (rowTimestamp r d).included_used = d.included_used ∧
    (rowTimestamp r d).included_total = d.included_total ∧
    (rowTimestamp r d).ondemand_used = d.ondemand_used ∧
    (rowTimestamp r d).ondemand_limit = d.ondemand_limit ∧
    (rowTimestamp r d).last_model = d.last_model ∧
    (rowTimestamp r d).is_thinking_mode = d.is_thinking_mode ∧
    (rowTimestamp r d).is_max_mode = d.is_max_mode := by
  cases h : timestampSpan r <;> simp [rowTimestamp, h]

theorem rowModel_frame (r : Row) (d : UsageData) :
    (rowModel r d).included_used = d.included_used ∧
    (rowModel r d).included_total = d.included_total ∧
    (rowModel r d).ondemand_used = d.ondemand_used ∧
    (rowModel r d).ondemand_limit = d.ondemand_limit ∧
    (rowModel r d).last_timestamp = d.last_timestamp ∧
    (rowModel r d).is_max_mode = d.is_max_mode := by
  cases h : modelSpan r with
  | none => simp [rowModel, h]
  | some sp => simp only [rowModel, h]; split_ifs <;> simp

theorem rowMax_frame (r : Row) (d : UsageData) :
    (rowMax r d).included_used = d.included_used ∧
    (rowMax r d).included_total = d.included_total ∧
    (rowMax r d).ondemand_used = d.ondemand_used ∧
    (rowMax r d).ondemand_limit = d.ondemand_limit ∧
    (rowMax r d).last_model = d.last_model ∧
    (rowMax r d).last_timestamp = d.last_timestamp ∧
    (rowMax r d).is_thinking_mode = d.is_thinking_mode := by
  unfold rowMax
  split_ifs <;> simp

theorem rowStep_frame (r : Row) (d : UsageData) :
    (rowStep r d).included_used = d.included_used ∧
    (rowStep r d).included_total = d.included_total ∧
    (rowStep r d).ondemand_used = d.ondemand_used ∧
    (rowStep r d).ondemand_limit = d.ondemand_limit := by
  unfold rowStep
  obtain ⟨a1, a2, a3, a4, -, -, -⟩ := rowTimestamp_frame r d
  obtain ⟨b1, b2, b3, b4, -, -⟩ := rowModel_frame r (rowTimestamp r d)
  obtain ⟨c1, c2, c3, c4, -, -, -⟩ := rowMax_frame r (rowModel r (rowTimestamp r d))
  exact ⟨c1.trans (b1.trans a1), c2.trans (b2.trans a2), c3.trans (b3.trans a3),
    c4.trans (b4.trans a4)⟩

theorem parseRow_nil (d : UsageData) : parseRow [] d = d := rfl

theorem parseRow_cons (r : Row) (rest : List Row) (d : UsageData) :
    parseRow (r :: rest) d = if 4 ≤ r.cells.length then rowStep r d else d := rfl

theorem parseRow_frame (rows : List Row) (d : UsageData) :
    (parseRow rows d).included_used = d.included_used ∧
    (parseRow rows d).included_total = d.included_total ∧
    (parseRow rows d).ondemand_used = d.ondemand_used ∧
    (parseRow rows d).ondemand_limit = d.ondemand_limit := by
  cases rows with
  | nil => exact ⟨rfl, rfl, rfl, rfl⟩
  | cons r rest =>
      rw [parseRow_cons]
      split_ifs with h
      · exact rowStep_frame r d
      · exact ⟨rfl, rfl, rfl, rfl⟩

theorem parseIncluded_none (t : List Char) (d : UsageData)
    (h : includedSearch t = none) : parseIncluded t d = d := by
  unfold parseIncluded
  rw [h]

theorem parseOndemand_none (t : List Char) (d : UsageData)
    (h : ondemandSearch t = none) : parseOndemand t d = d := by
  unfold parseOndemand
  rw [h]

theorem rowTimestamp_none (r : Row) (d : UsageData)
    (h : timestampSpan r = none) : rowTimestamp r d = d := by
  unfold rowTimestamp
  rw [h]

theorem rowModel_none (r : Row) (d : UsageData)
    (h : modelSpan r = none) : rowModel r d = d := by
  unfold rowModel
  rw [h]

theorem rowMax_none (r : Row) (d : UsageData)
    (h : (r.strings.any fun s => containsWordMax s.toList) = false) : rowMax r d = d := by
  unfold rowMax
  rw [h]
  simp

theorem rowMax_is_max (r : Row) (d : UsageData) :
    (rowMax r d).is_max_mode = ((r.strings.any fun s => containsWordMax s.toList) || d.is_max_mode) := by
  unfold rowMax
  split_ifs with h
  · rw [h, Bool.true_or]
  · rw [Bool.not_eq_true] at h
    rw [h, Bool.false_or]

/-- Row fields of the text-scanning stage stay at their defaults. -/
theorem base_row_fields (t : List Char) :
    (parseOndemand t (parseIncluded t defaultUsageData)).last_model = none ∧
    (parseOndemand t (parseIncluded t defaultUsageData)).last_timestamp = none ∧
    (parseOndemand t (parseIncluded t defaultUsageData)).is_thinking_mode = false ∧
    (parseOndemand t (parseIncluded t defaultUsageData)).is_max_mode = false := by
  obtain ⟨-, -, i3, i4, i5, i6⟩ := parseIncluded_frame t defaultUsageData
  obtain ⟨-, -, o3, o4, o5, o6⟩ := parseOndemand_frame t (parseIncluded t defaultUsageData)
  exact ⟨o3.trans i3, o4.trans i4, o5.trans i5, o6.trans i6⟩

/-- With no included-usage match, the included fields keep their
defaults. -/
theorem parseUsage_included_default (doc : SoupDoc)
    (h : includedSearch doc.allText.toList = none) :
    (parseUsage doc).included_used = 0 ∧ (parseUsage doc).included_total = 500 := by
  unfold parseUsage
  rw [parseIncluded_none _ _ h]
  obtain ⟨p1, p2, -, -⟩ := parseRow_frame doc.rows (parseOndemand doc.allText.toList defaultUsageData)
  obtain ⟨q1, q2, -, -, -, -⟩ := parseOndemand_frame doc.allText.toList defaultUsageData
  exact ⟨p1.trans q1, p2.trans q2⟩

/-- With no on-demand match, the on-demand fields keep their
defaults. -/
theorem parseUsage_ondemand_default (doc : SoupDoc)
    (h : ondemandSearch doc.allText.toList = none) :
    (parseUsage doc).ondemand_used = 0 ∧ (parseUsage doc).ondemand_limit = 10 := by
  unfold parseUsage
  rw [parseOndemand_none _ _ h]
  obtain ⟨-, -, p3, p4⟩ := parseRow_frame doc.rows (parseIncluded doc.allText.toList defaultUsageData)
  obtain ⟨i1, i2, -, -, -, -⟩ := parseIncluded_frame doc.allText.toList defaultUsageData
  exact ⟨p3.trans i1, p4.trans i2⟩

/-- C1: the parser is a total function of the document (it cannot
raise on malformed, partial or empty input — `parseUsage` is defined
on every `SoupDoc`), and every field whose expected pattern is absent
keeps its dataclass default: the included and on-demand fields when
their regex finds no match, and the row fields when there is no row,
when the first row has fewer than four cells, or when the individual
span / badge pattern inside a four-cell row is missing. -/
theorem c1_parser_defaults (doc : SoupDoc) :
    (includedSearch doc.allText.toList = none →
        (parseUsage doc).included_used = 0 ∧ (parseUsage doc).included_total = 500) ∧
    (ondemandSearch doc.allText.toList = none →
        (parseUsage doc).ondemand_used = 0 ∧ (parseUsage doc).ondemand_limit = 10) ∧
    (doc.rows = [] →
        (parseUsage doc).last_model = none ∧ (parseUsage doc).last_timestamp = none ∧
        (parseUsage doc).is_thinking_mode = false ∧ (parseUsage doc).is_max_mode = false) ∧
    (∀ r rest, doc.rows = r :: rest → r.cells.length < 4 →
        (parseUsage doc).last_model = none ∧ (parseUsage doc).last_timestamp = none ∧
        (parseUsage doc).is_thinking_mode = false ∧ (parseUsage doc).is_max_mode = false) ∧
    (∀ r rest, doc.rows = r :: rest → 4 ≤ r.cells.length →
        (timestampSpan r = none → (parseUsage doc).last_timestamp = none) ∧
        (modelSpan r = none → (parseUsage doc).last_model = none ∧
            (parseUsage doc).is_thinking_mode = false) ∧
        ((r.strings.any fun s => containsWordMax s.toList) = false →
            (parseUsage doc).is_max_mode = false)) := by
  refine ⟨fun h => ?_, fun h => ?_, fun h => ?_, fun r rest hr hc => ?_, fun r rest hr hc => ?_⟩
  · exact parseUsage_included_default doc h
  · exact parseUsage_ondemand_default doc h
  · unfold parseUsage
    rw [h, parseRow_nil]
    exact base_row_fields doc.allText.toList
  · unfold parseUsage
    rw [hr, parseRow_cons, if_neg (by omega)]
    exact base_row_fields doc.allText.toList
  · unfold parseUsage
    rw [hr, parseRow_cons, if_pos hc]
    unfold rowStep
    obtain ⟨b1, b2, b3, b4⟩ := base_row_fields doc.allText.toList
    refine ⟨fun hts => ?_, fun hms => ?_, fun hmx => ?_⟩
    · rw [rowTimestamp_none _ _ hts]
      obtain ⟨-, -, -, -, -, m5, -⟩ := rowMax_frame r (rowModel r (parseOndemand doc.allText.toList (parseIncluded doc.allText.toList defaultUsageData)))
      obtain ⟨-, -, -, -, n5, -⟩ := rowModel_frame r (parseOndemand doc.allText.toList (parseIncluded doc.allText.toList defaultUsageData))
      exact m5.trans (n5.trans b2)
    · rw [rowModel_none _ _ hms]
      obtain ⟨-, -, -, -, m5, -, m7⟩ := rowMax_frame r (rowTimestamp r (parseOndemand doc.allText.toList (parseIncluded doc.allText.toList defaultUsageData)))
      obtain ⟨-, -, -, -, t5, t6, -⟩ := rowTimestamp_frame r (parseOndemand doc.allText.toList (parseIncluded doc.allText.toList defaultUsageData))
      exact ⟨m5.trans (t5.trans b1), m7.trans (t6.trans b3)⟩
    · rw [rowMax_none _ _ hmx]
      obtain ⟨-, -, -, -, -, n6⟩ := rowModel_frame r (rowTimestamp r (parseOndemand doc.allText.toList (parseIncluded doc.allText.toList defaultUsageData)))
      obtain ⟨-, -, -, -, -, -, t7⟩ := rowTimestamp_frame r (parseOndemand doc.allText.toList (parseIncluded doc.allText.toList defaultUsageData))
      exact n6.trans (t7.trans b4)

theorem c1_parser_defaults_witness :
    (parseUsage emptyDoc).included_used = 0 ∧ (parseUsage emptyDoc).included_total = 500 ∧
    (parseUsage emptyDoc).last_model = none :=
  ⟨((c1_parser_defaults emptyDoc).1 (by decide)).1,
   ((c1_parser_defaults emptyDoc).1 (by decide)).2,
   ((c1_parser_defaults emptyDoc).2.2.1 rfl).1⟩

/-- C10: when neither usage pattern matches (for example the empty
document), the parsed record keeps the nonzero defaults
included_total = 500 and ondemand_limit = 10, with included_used = 0
and ondemand_used = 0, so included_remaining = 500 and
included_percentage = 0 — the safe defaults are not all zero. -/
theorem c10_default_snapshot (doc : SoupDoc)
    (h1 : includedSearch doc.allText.toList = none)
    (h2 : ondemandSearch doc.allText.toList = none) :
    (parseUsage doc).included_used = 0 ∧
    (parseUsage doc).included_total = 500 ∧
    (parseUsage doc).ondemand_used = 0 ∧
    (parseUsage doc).ondemand_limit = 10 ∧
    (parseUsage doc).included_remaining = 500 ∧
    (parseUsage doc).included_percentage = 0 := by
  obtain ⟨u1, u2⟩ := parseUsage_included_default doc h1
  obtain ⟨u3, u4⟩ := parseUsage_ondemand_default doc h2
  refine ⟨u1, u2, u3, u4, ?_, ?_⟩
  · rw [UsageData.included_remaining, u1, u2]
    decide
  · rw [UsageData.included_percentage, u2, u1]
    norm_num

theorem c10_default_snapshot_witness :
    (parseUsage emptyDoc).included_total = 500 ∧
    (parseUsage emptyDoc).ondemand_limit = 10 ∧
    (parseUsage emptyDoc).included_remaining = 500 ∧
    (parseUsage emptyDoc).included_percentage = 0 :=
  ⟨(c10_default_snapshot emptyDoc (by decide) (by decide)).2.1,
   (c10_default_snapshot emptyDoc (by decide) (by decide)).2.2.2.1,
   (c10_default_snapshot emptyDoc (by decide) (by decide)).2.2.2.2.1,
   (c10_default_snapshot emptyDoc (by decide) (by decide)).2.2.2.2.2⟩

/-- C4 counterexample: a first usage row whose text contains the
standalone word "Max" but which has fewer than four cells leaves
is_max_mode false — the Max-badge check (line 298) sits inside the
`len(cells) >= 4` guard (line 284), so the claim fails as stated. -/
theorem c4_counterexample :
    containsWordMax maxBadgeStr.toList = true ∧
    c4CexDoc.rows = [c4CexRow] ∧
    c4CexRow.strings = [maxBadgeStr] ∧
    c4CexRow.cells.length < 4 ∧
    (parseUsage c4CexDoc).is_max_mode = false := by decide

/-- C4 amended: for every document whose first usage row has at least
four cells, is_max_mode is set exactly when some text node of the row
contains the standalone case-insensitive word "Max"; the badge text
"Max" qualifies while "Maximal-7B", which contains "Max" only inside
a longer word, does not. -/
theorem c4_max_mode (doc : SoupDoc) (r : Row) (rest : List Row)
    (h1 : doc.rows = r :: rest) (h2 : 4 ≤ r.cells.length) :
    (parseUsage doc).is_max_mode = (r.strings.any fun s => containsWordMax s.toList) ∧
    containsWordMax maxBadgeStr.toList = true ∧
    containsWordMax maximalStr.toList = false := by
  refine ⟨?_, by decide, by decide⟩
  unfold parseUsage
  rw [h1, parseRow_cons, if_pos h2]
  unfold rowStep
  rw [rowMax_is_max]
  obtain ⟨-, -, -, -, -, n6⟩ := rowModel_frame r (rowTimestamp r (parseOndemand doc.allText.toList (parseIncluded doc.allText.toList defaultUsageData)))
  obtain ⟨-, -, -, -, -, -, t7⟩ := rowTimestamp_frame r (parseOndemand doc.allText.toList (parseIncluded doc.allText.toList defaultUsageData))
  obtain ⟨-, -, -, b4⟩ := base_row_fields doc.allText.toList
  rw [n6.trans (t7.trans b4), Bool.or_false]

theorem c4_max_mode_witness :
    (parseUsage c4Doc).is_max_mode = (c4Row.strings.any fun s => containsWordMax s.toList) ∧
    (parseUsage c4MaximalDoc).is_max_mode =
      (c4MaximalRow.strings.any fun s => containsWordMax s.toList) :=
  ⟨(c4_max_mode c4Doc c4Row [] rfl (by decide)).1,
   (c4_max_mode c4MaximalDoc c4MaximalRow [] rfl (by decide)).1⟩

/-! ### Locating the first regex match (for C3) -/

theorem isPrefixOf_append_self (l t : List Char) : l.isPrefixOf (l ++ t) = true := by
  induction l with
  | nil => simp [List.isPrefixOf]
  | cons a l ih => simp [List.isPrefixOf, ih]

/-- When no occurrence of `lab` starts before position `pre.length`,
`dropAfter` returns exactly the part after the first occurrence. -/
theorem dropAfter_first (lab pre tail : List Char) (hlab : lab ≠ [])
    (h : ∀ k, k < pre.length → lab.isPrefixOf ((pre ++ (lab ++ tail)).drop k) = false) :
    dropAfter lab (pre ++ (lab ++ tail)) = some tail := by
  induction pre with
  | nil =>
      obtain ⟨a, l, rfl⟩ : ∃ a l, lab = a :: l := by
        cases lab with
        | nil => exact absurd rfl hlab
        | cons a l => exact ⟨a, l, rfl⟩
      rw [List.nil_append, List.cons_append, dropAfter]
      rw [← List.cons_append, isPrefixOf_append_self]
      simp [List.drop_left]
  | cons c pre ih =>
      have h0 := h 0 (by simp)
      rw [List.drop_zero] at h0
      rw [List.cons_append, dropAfter]
      rw [List.cons_append] at h0
      rw [h0]
      simp only [Bool.false_eq_true, if_false]
      exact ih (fun k hk => by
        have := h (k + 1) (by simpa using Nat.succ_lt_succ hk)
        rwa [List.cons_append, List.drop_succ_cons] at this)

/-- When no pair pattern matches inside `mid`, the lazy scan skips it. -/
theorem scanPair_skip (mid rest : List Char)
    (h : ∀ k, k < mid.length → matchPairAt ((mid ++ rest).drop k) = none) :
    scanPair (mid ++ rest) = scanPair rest := by
  induction mid with
  | nil => rfl
  | cons c mid ih =>
      have h0 := h 0 (by simp)
      rw [List.drop_zero, List.cons_append] at h0
      rw [List.cons_append, scanPair, h0]
      exact ih (fun k hk => by
        have := h (k + 1) (by simpa using Nat.succ_lt_succ hk)
        rwa [List.cons_append, List.drop_succ_cons] at this)

theorem takeWhile_digit_head_false (post : List Char) (h : headNotDigit post = true) :
    post.takeWhile Char.isDigit = [] := by
  cases post with
  | nil => rfl
  | cons c t =>
      rw [headNotDigit, Bool.not_eq_true'] at h
      simp [List.takeWhile_cons, h]

/-- The pair pattern matches at the head of `"37 / 500" ++ post` with
groups 37 and 500, as long as `post` does not extend the digit run. -/
theorem matchPairAt_pair37 (post : List Char) (h : headNotDigit post = true) :
    matchPairAt ('3' :: '7' :: ' ' :: '/' :: ' ' :: '5' :: '0' :: '0' :: post) =
      some (37, 500) := by
  have htw := takeWhile_digit_head_false post h
  have h3 : Char.isDigit '3' = true := by decide
  have h7 : Char.isDigit '7' = true := by decide
  have h5 : Char.isDigit '5' = true := by decide
  have h0 : Char.isDigit '0' = true := by decide
  have hsp : Char.isDigit ' ' = false := by decide
  have hps : isPySpace ' ' = true := by decide
  have hns : isPySpace '/' = false := by decide
  have hn5 : isPySpace '5' = false := by decide
  simp only [matchPairAt, dropSpaces, List.takeWhile_cons, List.dropWhile_cons,
    h3, h7, h5, h0, hsp, hps, hns, hn5, htw, if_true, if_false, Bool.false_eq_true,
    Bool.true_eq_false, ite_true, ite_false]
  simp [digitsToNat]

theorem scanPair_cons_some (c : Char) (l : List Char) (p : Nat × Nat)
    (h : matchPairAt (c :: l) = some p) : scanPair (c :: l) = some p := by
  rw [scanPair, h]

/-- C3 counterexample: the flattened text
"Included-Request Usage 1 / 2 and 37 / 500" contains the label
followed (across intervening text) by "37 / 500", yet parsing yields
included_used = 1 and included_total = 2 — the regex takes the first
integer pair after the label, so the claim fails as stated. -/
theorem c3_counterexample :
    c3CexDoc.allText.toList =
      includedLabel.toList ++ (c3CexMidStr.toList ++ pair37Str.toList) ∧
    (parseUsage c3CexDoc).included_used = 1 ∧
    (parseUsage c3CexDoc).included_total = 2 ∧
    ¬(parseUsage c3CexDoc).included_used = 37 := by decide

/-- C3 amended: if the flattened text contains "Included-Request
Usage" followed by "37 / 500", where no occurrence of the label starts
earlier, no integer-slash-integer pattern matches in the intervening
text (which in particular does not end in a digit), and the "500" is
not immediately followed by a digit, then parsing yields
included_used = 37, included_total = 500, included_percentage = 7.4
(= 37/5) and included_remaining = 463. -/
theorem c3_included_example (pre mid post : List Char) (doc : SoupDoc)
    (hdoc : doc.allText.toList =
        pre ++ (includedLabel.toList ++ (mid ++ (pair37Str.toList ++ post))))
    (hpre : ∀ k, k < pre.length →
        includedLabel.toList.isPrefixOf
          ((pre ++ (includedLabel.toList ++ (mid ++ (pair37Str.toList ++ post)))).drop k) = false)
    (hmid : ∀ k, k < mid.length →
        matchPairAt ((mid ++ (pair37Str.toList ++ post)).drop k) = none)
    (hpost : headNotDigit post = true) :
    (parseUsage doc).included_used = 37 ∧
    (parseUsage doc).included_total = 500 ∧
    (parseUsage doc).included_percentage = 37 / 5 ∧
    (parseUsage doc).included_remaining = 463 := by
  have hsearch : includedSearch doc.allText.toList = some (37, 500) := by
    rw [hdoc]
    unfold includedSearch
    rw [dropAfter_first includedLabel.toList pre (mid ++ (pair37Str.toList ++ post))
      (by decide) hpre]
    rw [Option.some_bind]
    rw [scanPair_skip mid (pair37Str.toList ++ post) hmid]
    have hform : pair37Str.toList ++ post =
        '3' :: '7' :: ' ' :: '/' :: ' ' :: '5' :: '0' :: '0' :: post := rfl
    rw [hform]
    exact scanPair_cons_some _ _ _ (matchPairAt_pair37 post hpost)
  have hstep : parseIncluded doc.allText.toList defaultUsageData =
      { defaultUsageData with included_used := 37, included_total := 500 } := by
    unfold parseIncluded
    rw [hsearch]
    rfl
  have hu : (parseUsage doc).included_used = 37 := by
    unfold parseUsage
    rw [hstep]
    obtain ⟨p1, -, -, -⟩ := parseRow_frame doc.rows
      (parseOndemand doc.allText.toList { defaultUsageData with included_used := 37, included_total := 500 })
    obtain ⟨q1, -, -, -, -, -⟩ := parseOndemand_frame doc.allText.toList
      { defaultUsageData with included_used := 37, included_total := 500 }
    exact p1.trans q1
  have ht : (parseUsage doc).included_total = 500 := by
    unfold parseUsage
    rw [hstep]
    obtain ⟨-, p2, -, -⟩ := parseRow_frame doc.rows
      (parseOndemand doc.allText.toList { defaultUsageData with included_used := 37, included_total := 500 })
    obtain ⟨-, q2, -, -, -, -⟩ := parseOndemand_frame doc.allText.toList
      { defaultUsageData with included_used := 37, included_total := 500 }
    exact p2.trans q2
  refine ⟨hu, ht, ?_, ?_⟩
  · rw [UsageData.included_percentage, ht, hu]
    norm_num
  · rw [UsageData.included_remaining, ht, hu]
    decide

theorem c3_included_example_witness :
    (parseUsage c3Doc).included_used = 37 ∧
    (parseUsage c3Doc).included_total = 500 ∧
    (parseUsage c3Doc).included_percentage = 37 / 5 ∧
    (parseUsage c3Doc).included_remaining = 463 :=
  c3_included_example c3PreStr.toList c3MidStr.toList c3PostStr.toList c3Doc
    (by decide) (by decide) (by decide) (by decide)
